import Mathlib

/-!
Verification of the `generic_trader` market-data facade and adapters.

Shallow embedding of `gti/atom.py` (facade dispatch), `gti/td_ameritrade.py`
(TD adapter: minute-bar window, option-chain flattening and filtering,
streaming loop), `gti/robinhood.py` and `gti/yahoo.py` (ticker handling).
Python values are modelled as follows: a function body that can either
`return v` or `raise e` is modelled with an explicit outcome type; a Python
function that falls off the end of its body returns `None`, modelled as
`Option.none` inside the returned value.

The file is laid out with all definitions first, then the theorems about
them.
-/

namespace GTI

/-! ## Definitions -/

/-! ### Facade dispatch (atom.py) -/

/-- Outcome of calling a Python function: either it raised an exception or it
returned a value, where the returned value `none` models Python `None`
(explicit or by falling off the end of the function body). -/
inductive PyOutcome (α : Type) where
  | raised (msg : String)
  | returned (v : Option α)
  deriving DecidableEq, Repr

/-- The adapter method the facade delegates to, together with the ticker
argument the facade passes through.  The facade in `atom.py` only selects the
adapter and forwards its parameters, so for dispatch purposes the call itself
is the result. -/
inductive AdapterCall where
  | tdaGetOptionsData (ticker expiry : String) (call_or_put in_or_out : Option String)
  | tdaGetHistoricalDailyBar (ticker start_date end_date : String)
  | yfGetHistoricalDailyBar (ticker start_date end_date : String)
  deriving DecidableEq, Repr

/-- Facade `atom.get_option_chain` (atom.py lines 54-58):
`if source == 'td': return tda.get_options_data(...)`,
`elif source == 'rob' or source == 'yfinance': raise NotImplementedError(...)`;
any other source (including the `'yf'` key used by every other facade
function for the yahoo adapter) falls off the end of the body and returns
Python `None`. -/
def get_option_chain (ticker expiry_date : String)
    (call_or_put in_or_out : Option String) (source : String) :
    PyOutcome AdapterCall :=
  if source = "td" then
    .returned (some (.tdaGetOptionsData ticker expiry_date call_or_put in_or_out))
  else if source = "rob" ∨ source = "yfinance" then
    .raised "This data source is not supported."
  else
    .returned none

/-- Facade `atom.get_historical_daily_bars` (atom.py lines 31-37):
`if source == 'td': return ...`; `if source == 'rob': pass` (the branch does
nothing and control continues); `if source == 'yf': return ...`; a source
that reaches the end of the body without returning (in particular `'rob'`,
whose branch is the silent `pass`) returns Python `None`. -/
def get_historical_daily_bars (ticker start_date end_date : String)
    (source : String) : PyOutcome AdapterCall :=
  if source = "td" then
    .returned (some (.tdaGetHistoricalDailyBar ticker start_date end_date))
  else if source = "yf" then
    .returned (some (.yfGetHistoricalDailyBar ticker start_date end_date))
  else
    .returned none

/-! ### Ticker normalization

Each adapter method below is modelled by the ticker argument it hands to its
external collaborator (the vendor SDK call), which is what a test double
would record. -/

/-- Python `str.upper()` on a string: upper-case every character. -/
def pyUpper (s : String) : String := ⟨s.data.map Char.toUpper⟩

/-- `TDAClient.get_stock_quote` calls `self.client.get_quote(ticker.upper())`
(td_ameritrade.py line 107). -/
def tdaGetStockQuoteArg (ticker : String) : String := pyUpper ticker

/-- `TDAClient.get_historical_daily_bar` calls
`self.client.get_price_history(ticker.upper(), ...)` (td_ameritrade.py
line 73). -/
def tdaGetPriceHistoryArg (ticker : String) : String := pyUpper ticker

/-- `TDAClient.get_minute_bars` calls
`self.client.get_price_history(ticker.upper(), ...)` (td_ameritrade.py
line 170). -/
def tdaGetMinuteBarsArg (ticker : String) : String := pyUpper ticker

/-- `YFinanceApi.get_latest_price` calls `yf.Ticker(ticker.upper())`
(yahoo.py line 66). -/
def yfGetLatestPriceArg (ticker : String) : String := pyUpper ticker

/-- `YFinanceApi.get_stock_quote` calls `yf.Ticker(ticker.upper())`
(yahoo.py line 56). -/
def yfGetStockQuoteArg (ticker : String) : String := pyUpper ticker

/-- `RobinhoodStocks.get_latest_price` calls `rs.get_latest_price(ticker)`
with the caller's ticker unchanged — no `.upper()` anywhere in robinhood.py
(line 42). -/
def robGetLatestPriceArg (ticker : String) : String := ticker

/-- `RobinhoodStocks.get_quotes` calls `rs.get_quotes(ticker)` with the
caller's ticker unchanged (robinhood.py line 69). -/
def robGetQuotesArg (ticker : String) : String := ticker

/-- `RobinhoodStocks.get_open_price` calls `rs.get_fundamentals(ticker, ...)`
with the caller's ticker unchanged (robinhood.py line 51). -/
def robGetOpenPriceArg (ticker : String) : String := ticker

/-- `RobinhoodStocks.get_option_dates` calls `ro.get_chains(ticker)` with the
caller's ticker unchanged (robinhood.py line 78). -/
def robGetOptionDatesArg (ticker : String) : String := ticker

/-- `TDAClient.get_option_chain` calls
`self.client.get_option_chain(ticker.upper())` (td_ameritrade.py line 230). -/
def tdaGetOptionChainArg (ticker : String) : String := pyUpper ticker

/-- `TDAClient.get_option_dates` calls
`self.client.get_option_chain(ticker.upper(), ...)` (td_ameritrade.py
line 241). -/
def tdaGetOptionDatesArg (ticker : String) : String := pyUpper ticker

/-- `TDAClient.get_options_data` calls
`self.client.get_option_chain(symbol.upper(), ...)` (td_ameritrade.py
line 267). -/
def tdaGetOptionsDataArg (ticker : String) : String := pyUpper ticker

/-- `TDAClient.get_stock_fundamental` calls
`self.client.search_instruments([ticker], ...)` with the caller's ticker
unchanged — no `.upper()` (td_ameritrade.py lines 218-219); the modelled
argument is the single ticker inside the list. -/
def tdaSearchInstrumentsArg (ticker : String) : String := ticker

/-- `YFinanceApi.get_historical_daily_bar` calls `yf.Ticker(ticker.upper())`
(yahoo.py line 20). -/
def yfGetHistoricalDailyBarArg (ticker : String) : String := pyUpper ticker

/-- `YFinanceApi.get_minute_bars` calls `yf.Ticker(ticker.upper())`
(yahoo.py line 78). -/
def yfGetMinuteBarsArg (ticker : String) : String := pyUpper ticker

/-- `YFinanceApi.get_open_price` calls `yf.Ticker(ticker.upper())`
(yahoo.py line 90). -/
def yfGetOpenPriceArg (ticker : String) : String := pyUpper ticker

/-- `YFinanceApi.get_stock_fundamental` calls `yf.Ticker(ticker.upper())`
(yahoo.py line 100). -/
def yfGetStockFundamentalArg (ticker : String) : String := pyUpper ticker

/-- `YFinanceApi.get_option_chain` calls `yf.Ticker(ticker.upper())`
(yahoo.py line 110). -/
def yfGetOptionChainArg (ticker : String) : String := pyUpper ticker

/-- `YFinanceApi.get_option_dates` calls `yf.Ticker(ticker.upper())`
(yahoo.py line 120). -/
def yfGetOptionDatesArg (ticker : String) : String := pyUpper ticker

/-- `YFinanceApi.get_options_data` calls `yf.Ticker(ticker.upper())`
(yahoo.py line 132). -/
def yfGetOptionsDataArg (ticker : String) : String := pyUpper ticker

/-! #### The multi-ticker download string (yahoo.py lines 26-43)

`YFinanceApi.yf_data_multi` builds the `tickers` argument of `yf.download`
as `str(tickers).replace("[","").replace("]","").replace("'","")
.replace(",","")` — the Python `str` of the caller's list, with brackets,
single quotes and commas removed.  No `.upper()` is applied anywhere on this
path. -/

/-- The single-quote character, written by code point to keep the embedding
free of quote-escape literals. -/
def quoteChar : Char := Char.ofNat 39

/-- A character survives all four `replace(c, "")` deletions: it is none of
`[`, `]`, the single quote, or `,`. -/
def keptChar (ch : Char) : Bool :=
  decide (ch ≠ '[') && decide (ch ≠ ']') && decide (ch ≠ quoteChar) &&
    decide (ch ≠ ',')

/-- The item part of Python `str` on a list of strings: each element
single-quoted, separated by `", "`. -/
def reprItems : List String → List Char
  | [] => []
  | [t] => quoteChar :: t.data ++ [quoteChar]
  | t :: u :: rest =>
    quoteChar :: t.data ++ quoteChar :: ',' :: ' ' :: reprItems (u :: rest)

/-- Python `str(tickers)` for a list of strings: the quoted items wrapped in
brackets, e.g. `str(['spy', 'aapl']) = "['spy', 'aapl']"`. -/
def pyStrList (tickers : List String) : String :=
  ⟨'[' :: reprItems tickers ++ [']']⟩

/-- Python `s.replace(c, "")` for a one-character pattern: delete every
occurrence of `c`. -/
def pyRemoveChar (s : String) (c : Char) : String :=
  ⟨s.data.filter fun ch => decide (ch ≠ c)⟩

/-- The `tickers` string `YFinanceApi.yf_data_multi` passes to `yf.download`
(yahoo.py lines 34-35): `str(tickers)` with `[`, `]`, `'` and `,` removed,
in that order.  The caller's tickers are embedded as given — there is no
upper-casing on this path. -/
def yfDataMultiArg (tickers : List String) : String :=
  pyRemoveChar (pyRemoveChar (pyRemoveChar (pyRemoveChar
    (pyStrList tickers) '[') ']') quoteChar) ','

/-- Space-separated concatenation of the caller's tickers, verbatim — what
the download string amounts to for tickers free of the stripped
characters. -/
def joinSpace : List String → List Char
  | [] => []
  | [t] => t.data
  | t :: u :: rest => t.data ++ ' ' :: joinSpace (u :: rest)

/-! ### Minute-bar window calculator

Embeds the window computation of `TDAClient.get_minute_bars`
(td_ameritrade.py lines 140-151).  The source reads the current US/Pacific
wall-clock time; the spec's pure view `compute_window(now, lookback_days,
from_market_open)` takes that instant as a parameter.  An instant is a local
calendar day (days since 1970-01-01, a Thursday) plus an hour and minute of
day; the source zeroes seconds and microseconds on the market-open instant
and the claims never inspect them, so the embedding works at minute
granularity. -/

/-- A local (US/Pacific) wall-clock instant at minute granularity. -/
structure LocalDT where
  day : Int
  hour : Int
  minute : Int
  deriving DecidableEq, Repr

/-- Python `datetime.weekday()` for a day number: Monday = 0 .. Sunday = 6.
Day 0 (1970-01-01) was a Thursday, weekday 3. -/
def pyWeekday (day : Int) : Int := (day + 3) % 7

/-- Day count since 1970-01-01 of a civil date (proleptic Gregorian),
following the standard days-from-civil computation, so concrete dates in the
claims can be written as `daysFromCivil y m d`. -/
def daysFromCivil (y m d : Int) : Int :=
  let y' := if m ≤ 2 then y - 1 else y
  let era := (if 0 ≤ y' then y' else y' - 399) / 400
  let yoe := y' - era * 400
  let doy := (153 * (if 2 < m then m - 3 else m + 9) + 2) / 5 + d - 1
  let doe := yoe * 365 + yoe / 4 - yoe / 100 + doy
  era * 146097 + doe - 719468

/-- Total minutes of an instant, used to compare instants. -/
def toMinutes (t : LocalDT) : Int := t.day * 1440 + t.hour * 60 + t.minute

/-- Window computation of `TDAClient.get_minute_bars` (td_ameritrade.py
lines 140-151): `end_date = now`; if `from_market_open`, roll `now` forward
past a weekend (`if now.weekday() >= 5: now += timedelta(7 - now.weekday())`)
and take that day at the fixed local open 06:30 (`now.replace(hour=6,
minute=30, second=0, microsecond=0)`) as `start_date`; otherwise
`start_date = end_date - timedelta(lookback_days)`.  Returns
`(start_date, end_date)`. -/
def compute_window (now : LocalDT) (lookback_days : Int)
    (from_market_open : Bool) : LocalDT × LocalDT :=
  let end_date := now
  if from_market_open then
    let now' := if 5 ≤ pyWeekday now.day then
      { now with day := now.day + (7 - pyWeekday now.day) } else now
    let stock_market_open : LocalDT := { now' with hour := 6, minute := 30 }
    (stock_market_open, end_date)
  else
    ({ now with day := now.day - lookback_days }, end_date)

/-! ### Option-chain flattening and filtering

Embeds `TDAClient.get_options_data` (td_ameritrade.py lines 253-296).  The
vendor payload nests contracts under `callExpDateMap` / `putExpDateMap`,
then an expiration-date key, then a strike key; the JSON strike key is a
string the source parses with `float(strike)`, modelled here as the parsed
numeric key carried directly in the structure.  Prices are modelled as
rationals. -/

/-- A raw vendor option contract as found at a strike key.  Field `last` is
the vendor name, renamed to `lastPrice` on return. -/
structure RawOption where
  putCall : String
  strikePrice : ℚ
  bid : ℚ
  ask : ℚ
  last : ℚ
  inTheMoney : Bool
  deriving DecidableEq, Repr

/-- The nested option-chain payload: each date map is an association list of
expiration-date keys to association lists of (parsed) strike keys to the raw
contracts indexed there. -/
structure OptionChainPayload where
  callExpDateMap : List (String × List (ℚ × List RawOption))
  putExpDateMap : List (String × List (ℚ × List RawOption))
  deriving DecidableEq, Repr

/-- The two date maps iterated by
`for date_type in ["callExpDateMap", "putExpDateMap"]`
(td_ameritrade.py line 277). -/
def dateMaps (p : OptionChainPayload) :
    List (List (String × List (ℚ × List RawOption))) :=
  [p.callExpDateMap, p.putExpDateMap]

/-- The flattening loop (td_ameritrade.py lines 275-282): iterate both date
maps, every date, every strike and every contract, appending the contract to
`options_list` only when `float(strike) == option["strikePrice"]`. -/
def optionsList (p : OptionChainPayload) : List RawOption :=
  (dateMaps p).flatMap fun dateMap =>
    dateMap.flatMap fun dateEntry =>
      dateEntry.2.flatMap fun strikeEntry =>
        strikeEntry.2.filter fun o => decide (strikeEntry.1 = o.strikePrice)

/-- Every (strike key, raw contract) pair the flattening loop visits, in
iteration order and without the strike-match condition — the spec-side view
of the traversal, used to state which visited contracts are kept. -/
def flattenPairs (p : OptionChainPayload) : List (ℚ × RawOption) :=
  (dateMaps p).flatMap fun dateMap =>
    dateMap.flatMap fun dateEntry =>
      dateEntry.2.flatMap fun strikeEntry =>
        strikeEntry.2.map fun o => (strikeEntry.1, o)

/-- The `call_or_put` branch chain (td_ameritrade.py lines 285-292):
`None` keeps the frame, `"call"` keeps rows with `putCall == "CALL"`,
`"put"` keeps rows with `putCall == "PUT"`, and anything else takes the
`else` branch, modelled as `none` (the caller then returns the error
string). -/
def cpFiltered (result : List RawOption) (call_or_put : Option String) :
    Option (List RawOption) :=
  if call_or_put = none then some result
  else if call_or_put = some "call" then
    some (result.filter fun o => decide (o.putCall = "CALL"))
  else if call_or_put = some "put" then
    some (result.filter fun o => decide (o.putCall = "PUT"))
  else none

/-- The moneyness conditional expression (td_ameritrade.py line 294):
`result.loc[inTheMoney == True] if in_or_out == 'in' else
result.loc[inTheMoney == False] if in_or_out == 'out' else result`. -/
def ioFiltered (result : List RawOption) (in_or_out : Option String) :
    List RawOption :=
  if in_or_out = some "in" then
    result.filter fun o => decide (o.inTheMoney = true)
  else if in_or_out = some "out" then
    result.filter fun o => decide (o.inTheMoney = false)
  else result

/-- The fully filtered (still vendor-shaped) row set of
`TDAClient.get_options_data`, before the final column projection; `none`
models the invalid-filter path. -/
def filteredRows (p : OptionChainPayload) (call_or_put in_or_out : Option String) :
    Option (List RawOption) :=
  (cpFiltered (optionsList p) call_or_put).map fun r => ioFiltered r in_or_out

/-- A returned row after `rename(columns={"strikePrice": "strike", "last":
"lastPrice"})` and the projection to `["strike", "bid", "ask", "lastPrice"]`
(td_ameritrade.py lines 295-296). -/
structure OptionRow where
  strike : ℚ
  bid : ℚ
  ask : ℚ
  lastPrice : ℚ
  deriving DecidableEq, Repr

/-- Rename and project one surviving contract. -/
def projectRow (o : RawOption) : OptionRow :=
  ⟨o.strikePrice, o.bid, o.ask, o.last⟩

/-- What `TDAClient.get_options_data` returns: either the projected table or
— on the invalid-filter `else` branch — the plain string value
`"please input call or put"` (a normal return, not a raised exception). -/
inductive OptionsDataResult where
  | message (s : String)
  | table (rows : List OptionRow)
  deriving DecidableEq, Repr

/-- `TDAClient.get_options_data` after the flattening loop (td_ameritrade.py
lines 284-296): apply the `call_or_put` chain, returning the error string on
its `else` branch, then the moneyness conditional, then rename and project
the columns. -/
def get_options_data (p : OptionChainPayload)
    (call_or_put in_or_out : Option String) : OptionsDataResult :=
  match filteredRows p call_or_put in_or_out with
  | none => .message "please input call or put"
  | some rows => .table (rows.map projectRow)

/-- A sample call contract at strike 400 used as concrete test data. -/
def sampleCall : RawOption :=
  { putCall := "CALL", strikePrice := 400, bid := 2, ask := 3, last := 2,
    inTheMoney := true }

/-- A sample put contract at strike 400 used as concrete test data. -/
def samplePut : RawOption :=
  { putCall := "PUT", strikePrice := 400, bid := 1, ask := 2, last := 1,
    inTheMoney := false }

/-- A sample one-expiration payload holding one call and one put. -/
def samplePayload : OptionChainPayload :=
  { callExpDateMap := [("2023-05-05:0", [(400, [sampleCall])])],
    putExpDateMap := [("2023-05-05:0", [(400, [samplePut])])] }

/-! ### Minute-bar response handling

Embeds the tail of `TDAClient.get_minute_bars` (td_ameritrade.py lines
179-200): the handling of `history_response` after the vendor call.  The
pandas timezone pipeline (`to_datetime` / `tz_localize` / `tz_convert`) is
the external collaborator's arithmetic and is passed in as the conversion
function `tzConvert` applied to the epoch-millisecond `datetime` column. -/

/-- One raw candle from `history_response.json()["candles"]`. -/
structure Candle where
  datetime : Int
  «open» : ℚ
  high : ℚ
  low : ℚ
  close : ℚ
  volume : Int
  deriving DecidableEq, Repr

/-- One row of the returned frame after
`rename(columns={"datetime": "Date", "open": "Open", ...})` and the
projection to `["Date", "Open", "High", "Low", "Close", "Volume"]`. -/
structure BarRow where
  Date : Int
  Open : ℚ
  High : ℚ
  Low : ℚ
  Close : ℚ
  Volume : Int
  deriving DecidableEq, Repr

/-- The vendor's price-history response: an HTTP status code and, when
successful, the candle list of the JSON body. -/
structure HistoryResponse where
  status_code : Int
  candles : List Candle
  deriving DecidableEq, Repr

/-- Pandas `df.tail(n)`: the last `n` rows. -/
def pdTail (df : List α) (n : Nat) : List α := df.drop (df.length - n)

/-- Rename and project one candle row. -/
def renameRow (c : Candle) : BarRow :=
  ⟨c.datetime, c.«open», c.high, c.low, c.close, c.volume⟩

/-- Response handling of `TDAClient.get_minute_bars` (td_ameritrade.py lines
179-200).  On `status_code == 200`: build the frame, convert the datetime
column, then `if num_bars is not None: latest_bars = df.tail(num_bars)` —
a binding the very next line overwrites with `latest_bars = df.rename(...)`,
so the tail is computed and discarded — and return the renamed, projected
frame.  On any other status the source prints an error message and returns
Python `None`, modelled as `none`. -/
def get_minute_bars_result (tzConvert : Int → Int) (num_bars : Option Nat)
    (history_response : HistoryResponse) : Option (List BarRow) :=
  if history_response.status_code = 200 then
    let df := history_response.candles.map fun c =>
      { c with datetime := tzConvert c.datetime }
    let latest_bars := match num_bars with
      | some n => pdTail df n
      | none => df
    let latest_bars := df.map renameRow
    some latest_bars
  else
    none

/-! ### Streaming subscription loop

Embeds `TdaStream.read_stream` (td_ameritrade.py lines 316-327): after the
`login`, `quality_of_service` and `nasdaq_book_subs` handshake awaits, the
registered handler is called on each inbound message by
`while True: await self._stream_client.handle_message()`.  The transport is
modelled as the finite trace of events the loop observes: each
`handle_message` await either yields one inbound message (dispatched to the
handler) or raises a transport error, which propagates out of the loop.  The
result pairs the handler's dispatches, in arrival order, with the error that
escaped (`none` when the modelled trace ends with the loop still awaiting —
the source loop has no exit condition of its own). -/

/-- One observed transport event inside the message loop. -/
inductive StreamEvent (M E : Type) where
  | message (m : M)
  | failure (e : E)

/-- The `while True: await handle_message()` loop: dispatch each message to
the registered handler in arrival order; a raised transport error terminates
the loop and propagates, with no retry and no further events consumed. -/
def read_stream_loop {M E A : Type} (handler : M → A)
    (events : List (StreamEvent M E)) : List A × Option E :=
  match events with
  | [] => ([], none)
  | .message m :: rest =>
    let r := read_stream_loop handler rest
    (handler m :: r.1, r.2)
  | .failure e :: _ => ([], some e)

/-- `TdaStream.read_stream`: the three handshake awaits (`login`,
`quality_of_service`, `nasdaq_book_subs`), each of which may raise (modelled
by `some` error) and whose failure propagates before any message is
dispatched, followed by the message loop. -/
def read_stream {M E A : Type} (login qos subscribe : Option E)
    (handler : M → A) (events : List (StreamEvent M E)) : List A × Option E :=
  match login with
  | some e => ([], some e)
  | none =>
    match qos with
    | some e => ([], some e)
    | none =>
      match subscribe with
      | some e => ([], some e)
      | none => read_stream_loop handler events

/-! ## Theorems -/

/-- C1: the claim states that every unsupported operation/provider pair fails
with a typed `UnsupportedOperation` error and never yields a silent `None`.
The code violates this: `get_option_chain` with the yahoo key `'yf'` (the key
every other facade function uses for the yahoo adapter) falls through and
returns `None`, and `get_historical_daily_bars` with `'rob'` hits the silent
`pass` branch and returns `None`.  This theorem evaluates the embedded facade
at those failing inputs. -/
theorem c1_facade_returns_silent_none :
    get_option_chain "SPY" "2023-05-05" none none "yf" = .returned none ∧
    get_historical_daily_bars "SPY" "2021-01-01" "2023-04-22" "rob" =
      .returned none := by
  constructor <;> rfl

/-- C2: the claim states an invalid `call_or_put` value fails with a typed
`InvalidFilter` error and never yields a string error message.  The code
violates this: the `else` branch returns the plain string
`"please input call or put"` as the function's value.  This theorem
evaluates the embedded code at the failing input `call_or_put = "Call"`. -/
theorem c2_invalid_filter_returns_string :
    get_options_data samplePayload (some "Call") none =
      .message "please input call or put" := by
  rfl

/-- C3 counterexamples: the claim states every adapter upper-cases every
caller ticker before the external call.  Three operations do not: the
Robinhood adapter's price operation sends the lower-case ticker `"aapl"`
unchanged; the Yahoo adapter's multi-ticker download embeds `["spy", "aapl"]`
as the string `"spy aapl"`, not upper-cased; and the TD adapter's
instrument-fundamental lookup sends `"aapl"` unchanged. -/
theorem c3_unnormalized_counterexamples :
    robGetLatestPriceArg "aapl" = "aapl" ∧
    robGetLatestPriceArg "aapl" ≠ pyUpper "aapl" ∧
    yfDataMultiArg ["spy", "aapl"] = "spy aapl" ∧
    yfDataMultiArg ["spy", "aapl"] ≠ pyUpper "spy aapl" ∧
    tdaSearchInstrumentsArg "aapl" = "aapl" ∧
    tdaSearchInstrumentsArg "aapl" ≠ pyUpper "aapl" := by
  refine ⟨rfl, by decide, by decide, by decide, rfl, by decide⟩

/-- The four nested one-character deletions of `yfDataMultiArg` amount to one
filter keeping exactly the characters that are none of the four stripped
ones. -/
theorem filter_stripped_chars (l : List Char) :
    ((((l.filter fun ch => decide (ch ≠ '[')).filter
      fun ch => decide (ch ≠ ']')).filter
      fun ch => decide (ch ≠ quoteChar)).filter
      fun ch => decide (ch ≠ ',')) = l.filter keptChar := by
  simp only [List.filter_filter]
  exact List.filter_congr fun a _ => by
    simp [keptChar, decide_not, Bool.and_comm, Bool.and_assoc,
      Bool.and_left_comm]

/-- Stripping the quote/bracket/comma characters from the quoted item list
of tickers whose characters all survive the stripping leaves exactly the
tickers joined by single spaces. -/
theorem reprItems_filter (tickers : List String)
    (h : ∀ t ∈ tickers, ∀ ch ∈ t.data, keptChar ch = true) :
    (reprItems tickers).filter keptChar = joinSpace tickers := by
  induction tickers with
  | nil => rfl
  | cons t rest ih =>
    cases rest with
    | nil =>
      have hq : keptChar quoteChar = false := by decide
      have ht : t.data.filter keptChar = t.data :=
        List.filter_eq_self.mpr (h t (List.mem_cons_self t _))
      simp [reprItems, joinSpace, List.filter_cons, List.filter_append, hq, ht]
    | cons u rs =>
      have hq : keptChar quoteChar = false := by decide
      have hc : keptChar ',' = false := by decide
      have hs : keptChar ' ' = true := by decide
      have ht : t.data.filter keptChar = t.data :=
        List.filter_eq_self.mpr (h t (List.mem_cons_self t _))
      have ih' := ih fun t' ht' => h t' (List.mem_cons_of_mem t ht')
      simp only [reprItems, joinSpace, List.filter_cons, List.filter_append,
        hq, hc, hs, ht, ih', Bool.false_eq_true, if_false, if_true]

/-- The download string of `yf_data_multi` embeds the caller's tickers
verbatim: for tickers free of the stripped characters it is exactly the
tickers joined by single spaces, with no upper-casing. -/
theorem yfDataMultiArg_join (tickers : List String)
    (h : ∀ t ∈ tickers, ∀ ch ∈ t.data, keptChar ch = true) :
    yfDataMultiArg tickers = String.mk (joinSpace tickers) := by
  have h4 : yfDataMultiArg tickers =
      String.mk ((pyStrList tickers).data.filter keptChar) := by
    show String.mk ((((((pyStrList tickers).data.filter
        fun ch => decide (ch ≠ '[')).filter
        fun ch => decide (ch ≠ ']')).filter
        fun ch => decide (ch ≠ quoteChar)).filter
        fun ch => decide (ch ≠ ','))) = _
    rw [filter_stripped_chars]
  rw [h4]
  have h1 : keptChar '[' = false := by decide
  have h2 : keptChar ']' = false := by decide
  show String.mk (('[' :: reprItems tickers ++ [']']).filter keptChar) = _
  simp [List.filter_cons, List.filter_append, h1, h2,
    reprItems_filter tickers h]

/-- C3 (amended): the ticker is normalized to upper case before the external
call in the TD adapter's quote, daily-bar, minute-bar, option-chain,
option-date and option-data operations and in all nine of the Yahoo
adapter's single-ticker operations; it is not normalized by the Robinhood
adapter, whose price, open-price, quote and option-date operations pass the
caller's ticker unchanged, by the TD adapter's instrument-fundamental
lookup, which passes the ticker unchanged, or by the Yahoo adapter's
multi-ticker download, which embeds the caller's tickers verbatim in the
space-separated download string. -/
theorem c3_ticker_normalization (ticker : String) (tickers : List String)
    (h : ∀ t ∈ tickers, ∀ ch ∈ t.data, keptChar ch = true) :
    tdaGetStockQuoteArg ticker = pyUpper ticker ∧
    tdaGetPriceHistoryArg ticker = pyUpper ticker ∧
    tdaGetMinuteBarsArg ticker = pyUpper ticker ∧
    tdaGetOptionChainArg ticker = pyUpper ticker ∧
    tdaGetOptionDatesArg ticker = pyUpper ticker ∧
    tdaGetOptionsDataArg ticker = pyUpper ticker ∧
    yfGetHistoricalDailyBarArg ticker = pyUpper ticker ∧
    yfGetStockQuoteArg ticker = pyUpper ticker ∧
    yfGetLatestPriceArg ticker = pyUpper ticker ∧
    yfGetMinuteBarsArg ticker = pyUpper ticker ∧
    yfGetOpenPriceArg ticker = pyUpper ticker ∧
    yfGetStockFundamentalArg ticker = pyUpper ticker ∧
    yfGetOptionChainArg ticker = pyUpper ticker ∧
    yfGetOptionDatesArg ticker = pyUpper ticker ∧
    yfGetOptionsDataArg ticker = pyUpper ticker ∧
    robGetLatestPriceArg ticker = ticker ∧
    robGetOpenPriceArg ticker = ticker ∧
    robGetQuotesArg ticker = ticker ∧
    robGetOptionDatesArg ticker = ticker ∧
    tdaSearchInstrumentsArg ticker = ticker ∧
    yfDataMultiArg tickers = String.mk (joinSpace tickers) :=
  ⟨rfl, rfl, rfl, rfl, rfl, rfl, rfl, rfl, rfl, rfl, rfl, rfl, rfl, rfl, rfl,
    rfl, rfl, rfl, rfl, rfl, yfDataMultiArg_join tickers h⟩

/-- C3 witness: at the concrete lower-case ticker `"aapl"` and ticker list
`["spy", "aapl"]` (whose characters all survive the stripping), the TD and
Yahoo single-ticker operations send `"AAPL"`, the Robinhood price operation
sends `"aapl"`, and the multi-ticker download string is `"spy aapl"`. -/
theorem c3_ticker_normalization_witness :
    (∀ t ∈ ["spy", "aapl"], ∀ ch ∈ t.data, keptChar ch = true) ∧
    tdaGetStockQuoteArg "aapl" = pyUpper "aapl" ∧
    yfGetLatestPriceArg "aapl" = pyUpper "aapl" ∧
    robGetLatestPriceArg "aapl" = "aapl" ∧
    yfDataMultiArg ["spy", "aapl"] = String.mk (joinSpace ["spy", "aapl"]) := by
  obtain ⟨h1, h2, h3, h4, h5, h6, h7, h8, h9, h10, h11, h12, h13, h14, h15,
    h16, h17, h18, h19, h20, h21⟩ :=
    c3_ticker_normalization "aapl" ["spy", "aapl"] (by decide)
  exact ⟨by decide, h1, h9, h16, h21⟩

/-- C4: the claim states a failing collaborator response surfaces a typed
`TransportError`/`MalformedResponse` and the adapter never returns `None`.
The code violates this: on a non-success status `get_minute_bars` prints a
message and returns `None`.  This theorem evaluates the embedded code at a
404 response. -/
theorem c4_non_success_returns_none :
    get_minute_bars_result (fun t => t) none ⟨404, []⟩ = none := by
  rfl

/-- C5: with `from_market_open = true` and `now` on a weekend (Python weekday
5 or 6), the window's start is the next Monday's fixed local market-open
instant 06:30 — a strictly later day of weekday 0, exactly
`7 - weekday(now)` days ahead — and the end is the original un-rolled
`now`. -/
theorem c5_weekend_rolls_to_monday_open (now : LocalDT) (lookback_days : Int)
    (hw : 5 ≤ pyWeekday now.day) :
    (compute_window now lookback_days true).2 = now ∧
    (compute_window now lookback_days true).1.day =
      now.day + (7 - pyWeekday now.day) ∧
    pyWeekday (compute_window now lookback_days true).1.day = 0 ∧
    now.day < (compute_window now lookback_days true).1.day ∧
    (compute_window now lookback_days true).1.hour = 6 ∧
    (compute_window now lookback_days true).1.minute = 30 := by
  have hday : (compute_window now lookback_days true).1.day =
      now.day + (7 - pyWeekday now.day) := by
    show (if 5 ≤ pyWeekday now.day then
        ({ now with day := now.day + (7 - pyWeekday now.day) } : LocalDT)
      else now).day = now.day + (7 - pyWeekday now.day)
    rw [if_pos hw]
  refine ⟨rfl, hday, ?_, ?_, rfl, rfl⟩
  · rw [hday]
    simp only [pyWeekday] at hw ⊢
    omega
  · rw [hday]
    simp only [pyWeekday] at hw ⊢
    omega

/-- C5 witness: Saturday 2024-03-16 10:00 rolls to Monday 2024-03-18 as the
start day, at the fixed market open 06:30, with the end left at the original
Saturday instant. -/
theorem c5_weekend_rolls_to_monday_open_witness :
    5 ≤ pyWeekday (daysFromCivil 2024 3 16) ∧
    (compute_window ⟨daysFromCivil 2024 3 16, 10, 0⟩ 5 true).2 =
      ⟨daysFromCivil 2024 3 16, 10, 0⟩ ∧
    (compute_window ⟨daysFromCivil 2024 3 16, 10, 0⟩ 5 true).1.day =
      daysFromCivil 2024 3 18 ∧
    pyWeekday (compute_window ⟨daysFromCivil 2024 3 16, 10, 0⟩ 5 true).1.day
      = 0 ∧
    (compute_window ⟨daysFromCivil 2024 3 16, 10, 0⟩ 5 true).1.hour = 6 ∧
    (compute_window ⟨daysFromCivil 2024 3 16, 10, 0⟩ 5 true).1.minute = 30 := by
  have h := c5_weekend_rolls_to_monday_open ⟨daysFromCivil 2024 3 16, 10, 0⟩
    5 (by decide)
  exact ⟨by decide, h.1, by rw [h.2.1]; decide, h.2.2.1, h.2.2.2.2.1,
    h.2.2.2.2.2⟩

/-- C6: with `from_market_open = false`, the window's end is `now` and its
start is `now` minus `lookback_days` calendar days (hour and minute
unchanged); for non-negative `lookback_days` the start never exceeds the
end. -/
theorem c6_lookback_window (now : LocalDT) (lookback_days : Int)
    (hlb : 0 ≤ lookback_days) :
    (compute_window now lookback_days false).2 = now ∧
    (compute_window now lookback_days false).1 =
      { now with day := now.day - lookback_days } ∧
    toMinutes (compute_window now lookback_days false).1 ≤
      toMinutes (compute_window now lookback_days false).2 := by
  refine ⟨rfl, rfl, ?_⟩
  show (now.day - lookback_days) * 1440 + now.hour * 60 + now.minute ≤
    now.day * 1440 + now.hour * 60 + now.minute
  omega

/-- C6 witness: `now = 2024-03-15T10:00` with `lookback_days = 5` yields
`start = 2024-03-10T10:00` and `end = 2024-03-15T10:00`, with
`start ≤ end`. -/
theorem c6_lookback_window_witness :
    (compute_window ⟨daysFromCivil 2024 3 15, 10, 0⟩ 5 false).2 =
      ⟨daysFromCivil 2024 3 15, 10, 0⟩ ∧
    (compute_window ⟨daysFromCivil 2024 3 15, 10, 0⟩ 5 false).1 =
      ⟨daysFromCivil 2024 3 10, 10, 0⟩ ∧
    toMinutes (compute_window ⟨daysFromCivil 2024 3 15, 10, 0⟩ 5 false).1 ≤
      toMinutes (compute_window ⟨daysFromCivil 2024 3 15, 10, 0⟩ 5 false).2 := by
  have h := c6_lookback_window ⟨daysFromCivil 2024 3 15, 10, 0⟩ 5 (by decide)
  exact ⟨h.1, by rw [h.2.1]; decide, h.2.2⟩

/-- C7: a raw contract is in the flattened result exactly when the loop
visited it under a strike key equal to the contract's own strike field; a
contract found under a mismatched strike key is dropped, and every kept
contract is the visited record itself, never corrected to either strike
value. -/
theorem c7_strike_mismatch_dropped (p : OptionChainPayload) (o : RawOption) :
    o ∈ optionsList p ↔ ∃ k, (k, o) ∈ flattenPairs p ∧ k = o.strikePrice := by
  simp only [optionsList, flattenPairs, List.mem_flatMap, List.mem_filter,
    List.mem_map, decide_eq_true_eq, Prod.mk.injEq]
  constructor
  · rintro ⟨dm, hdm, de, hde, se, hse, ho, hk⟩
    exact ⟨se.1, ⟨dm, hdm, de, hde, se, hse, o, ho, rfl, rfl⟩, hk⟩
  · rintro ⟨k, ⟨dm, hdm, de, hde, se, hse, o', ho', hk', ho''⟩, hk⟩
    subst hk' ho''
    exact ⟨dm, hdm, de, hde, se, hse, ho', hk⟩

/-- C7 witness: in the sample payload the sample call contract is kept, and
it is visited under its own strike key 400. -/
theorem c7_strike_mismatch_dropped_witness :
    ∃ k, (k, sampleCall) ∈ flattenPairs samplePayload ∧
      k = sampleCall.strikePrice := by
  exact (c7_strike_mismatch_dropped samplePayload sampleCall).mp (by decide)

/-- Any row surviving the moneyness conditional came from the input frame. -/
theorem ioFiltered_subset {result : List RawOption} {in_or_out : Option String}
    {o : RawOption} (h : o ∈ ioFiltered result in_or_out) : o ∈ result := by
  unfold ioFiltered at h
  split at h
  · exact (List.mem_filter.mp h).1
  · split at h
    · exact (List.mem_filter.mp h).1
    · exact h

/-- C8: whenever `get_options_data` returns a table, the rows are the
projection of the filtered set; under the `"call"` filter every kept row has
`putCall = "CALL"` and under `"put"` every kept row has `putCall = "PUT"`;
under the `"in"` (resp. `"out"`) moneyness filter every kept row has
`inTheMoney = true` (resp. `false`); and an unspecified moneyness filter
leaves the call/put-filtered set unchanged. -/
theorem c8_option_filters (p : OptionChainPayload)
    (call_or_put in_or_out : Option String) (rows : List RawOption)
    (h : filteredRows p call_or_put in_or_out = some rows) :
    get_options_data p call_or_put in_or_out = .table (rows.map projectRow) ∧
    (call_or_put = some "call" → ∀ o ∈ rows, o.putCall = "CALL") ∧
    (call_or_put = some "put" → ∀ o ∈ rows, o.putCall = "PUT") ∧
    (in_or_out = some "in" → ∀ o ∈ rows, o.inTheMoney = true) ∧
    (in_or_out = some "out" → ∀ o ∈ rows, o.inTheMoney = false) ∧
    (in_or_out = none → cpFiltered (optionsList p) call_or_put = some rows) := by
  obtain ⟨mid, hmid, hrows⟩ := Option.map_eq_some'.mp h
  refine ⟨?_, ?_, ?_, ?_, ?_, ?_⟩
  · unfold get_options_data
    rw [h]
  · rintro rfl o ho
    have hmem : o ∈ mid := ioFiltered_subset (hrows ▸ ho)
    have hc : cpFiltered (optionsList p) (some "call") =
        some ((optionsList p).filter fun o => decide (o.putCall = "CALL")) := rfl
    rw [hc] at hmid
    rw [← Option.some.inj hmid] at hmem
    simpa using (List.mem_filter.mp hmem).2
  · rintro rfl o ho
    have hmem : o ∈ mid := ioFiltered_subset (hrows ▸ ho)
    have hc : cpFiltered (optionsList p) (some "put") =
        some ((optionsList p).filter fun o => decide (o.putCall = "PUT")) := rfl
    rw [hc] at hmid
    rw [← Option.some.inj hmid] at hmem
    simpa using (List.mem_filter.mp hmem).2
  · rintro rfl o ho
    rw [← hrows] at ho
    unfold ioFiltered at ho
    rw [if_pos rfl] at ho
    simpa using (List.mem_filter.mp ho).2
  · rintro rfl o ho
    rw [← hrows] at ho
    unfold ioFiltered at ho
    rw [if_neg (by decide : ¬ (some "out" : Option String) = some "in"),
      if_pos rfl] at ho
    simpa using (List.mem_filter.mp ho).2
  · rintro rfl
    rw [hmid]
    unfold ioFiltered at hrows
    simp only [reduceCtorEq, if_false] at hrows
    rw [hrows]

/-- C8 witness: on the sample payload with `call_or_put = "call"` and no
moneyness filter, the filtered set is exactly the sample call contract, every
kept row is a CALL, and the returned table is its projection. -/
theorem c8_option_filters_witness :
    get_options_data samplePayload (some "call") none =
      .table ([sampleCall].map projectRow) ∧
    (∀ o ∈ [sampleCall], o.putCall = "CALL") ∧
    cpFiltered (optionsList samplePayload) (some "call") = some [sampleCall] := by
  have h := c8_option_filters samplePayload (some "call") none [sampleCall]
    (by decide)
  exact ⟨h.1, h.2.1 rfl, h.2.2.2.2.2 rfl⟩

/-- C9: when the transport raises after `N` messages, the loop (after a
successful handshake) delivers exactly those `N` messages to the registered
handler, one at a time in arrival order, then propagates the failure and
terminates — whatever events lie beyond the failure are never consumed, so
there is no automatic retry. -/
theorem c9_stream_delivers_then_propagates {M E A : Type} (handler : M → A)
    (msgs : List M) (e : E) (later : List (StreamEvent M E)) :
    read_stream none none none handler
        (msgs.map StreamEvent.message ++ StreamEvent.failure e :: later) =
      (msgs.map handler, some e) := by
  show read_stream_loop handler
      (msgs.map StreamEvent.message ++ StreamEvent.failure e :: later) =
    (msgs.map handler, some e)
  induction msgs with
  | nil => rfl
  | cons m ms ih =>
    simp only [List.map_cons, List.cons_append, read_stream_loop,
      List.append_eq, ih]

/-- C10: the `num_bars` parameter has no effect on the result — the
truncated tail is computed but immediately shadowed before the return, so
every value of `num_bars` yields exactly the frame returned with `num_bars`
unspecified. -/
theorem c10_num_bars_has_no_effect (tzConvert : Int → Int)
    (num_bars : Option Nat) (history_response : HistoryResponse) :
    get_minute_bars_result tzConvert num_bars history_response =
      get_minute_bars_result tzConvert none history_response := by
  unfold get_minute_bars_result
  cases num_bars <;> rfl

end GTI
